import Mathlib

/-!
A shallow embedding of the carousel widget in src/JSCarousel.js and a
verification of the documented properties of its two components: the
FocusableElement helper (which decides which descendants of a subtree are
keyboard-focusable) and the JSCarousel controller (index state, panel
repositioning, tab selection, construction-time validation).

Modelling conventions:
* A DOM element is a record of exactly the data the source reads: tag name,
  the attributes inspected by the rules, inline style and computed style for
  the two CSS properties the rules query.  Computed styles are inputs of the
  model (they are produced by the hosting browser).
* `querySelectorAll` results are lists in document order.  Per the DOM
  standard `querySelectorAll` always returns a NodeList (possibly empty) and
  never `null`; the source's comparison `this.tabs !== null` is therefore
  modelled on an `Option` that is always `some`.  `querySelector` can return
  `null` and is modelled by `Option` / `Bool` presence flags.
* Pixel quantities (`parseFloat` of widths and `style.left`) are modelled as
  rationals; the arithmetic performed (one product, repeated additions) is
  exact at the granularity the claims are about.
* A thrown exception is modelled as an `Option String` error component paired
  with the state as mutated up to the throw (JavaScript mutations performed
  before a throw persist).
-/

/-- A DOM element as seen by the `FocusableElement` helper of the source:
`tagName` is the string the DOM reports for the element (uppercase for HTML
elements), `tabindexAttr` is the literal `tabindex` attribute when present,
`disabledAttr` and `hiddenAttr` record `hasAttribute("disabled")` and
`hasAttribute("hidden")`, `typeProp` is the element's `type` property, and the
four style fields give the inline (`el.style`) and computed
(`getComputedStyle`) values of the `display` and `visibility` properties. -/
structure Elem where
  tagName : String
  tabindexAttr : Option String
  disabledAttr : Bool
  hiddenAttr : Bool
  typeProp : String
  styleDisplay : String
  styleVisibility : String
  computedDisplay : String
  computedVisibility : String
  deriving DecidableEq

/-- `element.setAttribute("tabindex", v)`. -/
def Elem.setTabindexAttr (el : Elem) (v : String) : Elem :=
  { el with tabindexAttr := some v }

/-- `this.defaultFocusableHTMLElements` of `FocusableElement`: the fixed tag
allowlist. -/
def defaultFocusableHTMLElements : List String :=
  ["a", "button", "input", "textarea", "select", "summary"]

/-- ASCII lowercasing of a character (executable in the kernel). -/
def lowerChar (c : Char) : Char :=
  if 65 ≤ c.toNat ∧ c.toNat ≤ 90 then Char.ofNat (c.toNat + 32) else c

/-- ASCII lowercasing of a string; used to model the case-insensitive matching
of CSS type selectors against the uppercase `tagName` of HTML DOM elements. -/
def lowerString (s : String) : String :=
  String.mk (s.data.map lowerChar)

/-- Matching semantics of the selector string
`defaultFocusableHTMLElements.join(",") + ",[tabindex='v']"` built by the
source (`this.focusableQuerySelector`), for the tabindex literal `v` ("0" in
the constructor, "-1" after `show_window` reconfigures it): an element matches
iff its tag is in the allowlist (CSS type selectors match HTML elements
case-insensitively, so the uppercase DOM `tagName` is lowered) or its
`tabindex` attribute is exactly the literal `v`. -/
def focusableQuerySelectorMatches (tabindexLiteral : String) (el : Elem) : Bool :=
  defaultFocusableHTMLElements.contains (lowerString el.tagName)
    || el.tabindexAttr == some tabindexLiteral

/-- The inline style value `el.style[property]` for the two properties the
rules read (the empty string when unset, as in the DOM). -/
def Elem.styleProp (el : Elem) (property : String) : String :=
  if property = "display" then el.styleDisplay
  else if property = "visibility" then el.styleVisibility
  else ""

/-- The computed style value `getComputedStyle(el).getPropertyValue(property)`
for the two properties the rules read. -/
def Elem.computedProp (el : Elem) (property : String) : String :=
  if property = "display" then el.computedDisplay
  else if property = "visibility" then el.computedVisibility
  else ""

/-- `FocusableElement.hasStyle`: true when the inline style or the computed
style has the given value for the given property. -/
def hasStyle (el : Elem) (property value : String) : Bool :=
  el.styleProp property == value || el.computedProp property == value

/-- `FocusableElement.RULES`: the five rules an element must satisfy to be
considered focusable, exactly as written in the source (note that the last
rule compares `tagName` with the lowercase string "input"). -/
def RULES : List (Elem → Bool) :=
  [ fun el => !(hasStyle el "display" "none"),
    fun el => !(hasStyle el "visibility" "hidden"),
    fun el => !el.disabledAttr,
    fun el => !el.hiddenAttr,
    fun el => if el.tagName == "input" then el.typeProp != "hidden" else true ]

/-- `FocusableElement.isFocusable`: the conjunction of all rules (the source
loops and returns false at the first failing rule). -/
def isFocusable (el : Elem) : Bool :=
  RULES.all fun rule => rule el

/-- `FocusableElement.getKeyboardFocusableElements(parent)`: the descendants of
`parent` (in document order) matching the configured selector, filtered by
`isFocusable`.  `tabindexLiteral` is the value in the `[tabindex='...']` part
of the configured selector and `children` the descendant list of `parent`. -/
def getKeyboardFocusableElements (tabindexLiteral : String) (children : List Elem) :
    List Elem :=
  (children.filter (focusableQuerySelectorMatches tabindexLiteral)).filter isFocusable

/-- One `.carousel-content` panel: its inline `style.left` (px, as a rational),
its computed width (px), its `aria-hidden` attribute and the list of its
descendant elements in document order. -/
structure Panel where
  left : Rat
  computedWidth : Rat
  ariaHidden : Option String
  descendants : List Elem
  deriving DecidableEq

/-- `JSCarousel.hide_window`: set `aria-hidden="true"` on the panel, collect its
keyboard-focusable descendants with the default selector (tabindex literal
"0") and set `tabindex="-1"` on each of them. -/
def JSCarousel.hide_window (w : Panel) : Panel :=
  let focusable_elements := getKeyboardFocusableElements "0" w.descendants
  { w with
    ariaHidden := some "true"
    descendants := w.descendants.map fun el =>
      if focusable_elements.contains el then el.setTabindexAttr "-1" else el }

/-- `JSCarousel.show_window`: set `aria-hidden="false"` on the panel, collect
its descendants with the selector reconfigured to the tabindex literal "-1"
and set `tabindex="0"` on each of them. -/
def JSCarousel.show_window (w : Panel) : Panel :=
  let focusable_elements := getKeyboardFocusableElements "-1" w.descendants
  { w with
    ariaHidden := some "false"
    descendants := w.descendants.map fun el =>
      if focusable_elements.contains el then el.setTabindexAttr "0" else el }

/-- One `.carousel-tablist li` tab: its `aria-selected` and `tabindex`
attributes and, when the tab contains a `.pos` descendant, that descendant's
class list (`none` models a malformed tab without a `.pos` child). -/
structure Tab where
  ariaSelected : Option String
  tabindexAttr : Option String
  posClassList : Option (List String)
  deriving DecidableEq

/-- The message of the exception thrown by `active_panel` on a tab without a
`.pos` descendant. -/
def posError : String := "A tab is empty. It needs to contain a div with class `pos`."

/-- JavaScript indexing `l[i]` on an array-like: `undefined` (`none`) for a
negative or out-of-range index. -/
def jsIndex {α : Type} (l : List α) (i : Int) : Option α :=
  if 0 ≤ i then l.get? i.toNat else none

/-- The deselection loop of `JSCarousel.active_panel`: walk all tabs (the
counter `k` is the position of the head of the remaining list), skip the tab
at position `selected` (object identity in the source), set
`aria-selected="false"` and `tabindex="-1"` on every other tab and remove
`pos-active` from its `.pos` child; throw `posError` (leaving the remaining
tabs untouched) when a tab has no `.pos` child. -/
def JSCarousel.deselectTabs (selected : Int) : Nat → List Tab → Option String × List Tab
  | _, [] => (none, [])
  | k, t :: rest =>
    if (k : Int) = selected then
      let r := JSCarousel.deselectTabs selected (k + 1) rest
      (r.1, t :: r.2)
    else
      let t2 := { t with ariaSelected := some "false", tabindexAttr := some "-1" }
      match t2.posClassList with
      | some cls =>
        let t3 := { t2 with posClassList := some (cls.erase "pos-active") }
        let r := JSCarousel.deselectTabs selected (k + 1) rest
        (r.1, t3 :: r.2)
      | none => (some posError, t2 :: rest)

/-- The tab-updating part of `JSCarousel.active_panel`: if `this.tabs[index]`
exists, mark it selected (`aria-selected="true"`, `tabindex="0"`), add
`pos-active` to its `.pos` child (throwing `posError` if that child is
missing), then run the deselection loop over all tabs. -/
def JSCarousel.activePanelTabs (tabs : List Tab) (index : Int) : Option String × List Tab :=
  match jsIndex tabs index with
  | none => (none, tabs)
  | some tab =>
    let tab1 := { tab with ariaSelected := some "true", tabindexAttr := some "0" }
    match tab1.posClassList with
    | some cls =>
      let cls2 := if cls.contains "pos-active" then cls else cls ++ ["pos-active"]
      let tab2 := { tab1 with posClassList := some cls2 }
      JSCarousel.deselectTabs index 0 (tabs.set index.toNat tab2)
    | none => (some posError, tabs.set index.toNat tab1)

/-- The state of a `JSCarousel` instance together with the DOM fragment it
drives: the fields of the class (`width`, `max_index`, `current_index`,
`current_delay`, `this.tabs`, the resolved configuration flags) and the
current list of `.carousel-content` panels of the container (which the source
re-queries from `this.container`; the panel set is fixed after construction,
so it is carried in the state). -/
structure JSCarousel where
  width : Rat
  max_index : Int
  current_index : Int
  current_delay : Int
  tabs : Option (List Tab)
  allow_tabs : Bool
  allow_autonav : Bool
  allow_navbuttons : Bool
  autonav_delay : Int
  disable_keyboard_navigation : Bool
  windows : List Panel
  deriving DecidableEq

/-- The loop body of `JSCarousel.move` over the panel list (the counter `k` is
the position of the head of the remaining list): add `distance` to each
panel's current left offset, then hide every panel other than the one at
position `index` (`all_windows[index]`, compared by object identity in the
source) and show the one at `index`. -/
def JSCarousel.moveWindows (distance : Rat) (index : Int) : Nat → List Panel → List Panel
  | _, [] => []
  | k, w :: rest =>
    let w1 := { w with left := w.left + distance }
    let w2 := if (k : Int) ≠ index then JSCarousel.hide_window w1 else JSCarousel.show_window w1
    w2 :: JSCarousel.moveWindows distance index (k + 1) rest

/-- `JSCarousel.move`: compute
`distance = this.width * (this.current_index - index)`; when it is nonzero,
shift every panel by `distance` and update its hidden/shown state; when it is
zero, do nothing. -/
def JSCarousel.move (s : JSCarousel) (index : Int) : JSCarousel :=
  let distance : Rat := s.width * ((s.current_index : Rat) - (index : Rat))
  if distance ≠ 0 then
    { s with windows := JSCarousel.moveWindows distance index 0 s.windows }
  else s

/-- `JSCarousel.active_panel`: if `this.tabs` is truthy (a NodeList always is),
update the tab selection (possibly throwing `posError`, in which case `move`
is not reached and the mutations made so far persist), then `this.move(index)`. -/
def JSCarousel.active_panel (s : JSCarousel) (index : Int) : Option String × JSCarousel :=
  if s.tabs.isSome then
    match JSCarousel.activePanelTabs (s.tabs.getD []) index with
    | (some e, tabs2) => (some e, { s with tabs := some tabs2 })
    | (none, tabs2) => (none, JSCarousel.move { s with tabs := some tabs2 } index)
  else (none, JSCarousel.move s index)

/-- `JSCarousel.next`: activate `current_index + 1` when below `max_index`,
else wrap around and activate panel 0; `current_index` is updated after the
activation returns (so not when it throws). -/
def JSCarousel.next (s : JSCarousel) : Option String × JSCarousel :=
  if s.current_index < s.max_index then
    match JSCarousel.active_panel s (s.current_index + 1) with
    | (some e, s2) => (some e, s2)
    | (none, s2) => (none, { s2 with current_index := s2.current_index + 1 })
  else
    match JSCarousel.active_panel s 0 with
    | (some e, s2) => (some e, s2)
    | (none, s2) => (none, { s2 with current_index := 0 })

/-- `JSCarousel.previous`: activate `current_index - 1` when above 0, else wrap
around and activate `max_index`; `current_index` is updated after the
activation returns. -/
def JSCarousel.previous (s : JSCarousel) : Option String × JSCarousel :=
  if 0 < s.current_index then
    match JSCarousel.active_panel s (s.current_index - 1) with
    | (some e, s2) => (some e, s2)
    | (none, s2) => (none, { s2 with current_index := s2.current_index - 1 })
  else
    match JSCarousel.active_panel s s.max_index with
    | (some e, s2) => (some e, s2)
    | (none, s2) => (none, { s2 with current_index := s2.max_index })

/-- The click handler registered on the tab at position `i` by
`_enable_tabs_buttons`: `this.active_panel(i); this.current_index = i;
this.current_delay = 0;` (the two assignments are not reached when
`active_panel` throws). -/
def JSCarousel.tabClick (s : JSCarousel) (i : Nat) : Option String × JSCarousel :=
  match JSCarousel.active_panel s (i : Int) with
  | (some e, s2) => (some e, s2)
  | (none, s2) => (none, { s2 with current_index := (i : Int), current_delay := 0 })

/-- The DOM snapshot handed to the constructor: the result of
`querySelectorAll(".carousel-tablist li")`, the presence of the
`.carousel-prev` / `.carousel-next` buttons (`querySelector` results, `null`
when absent) and the `.carousel-content` panels in document order. -/
structure ContainerInput where
  tabItems : List Tab
  prevButton : Bool
  nextButton : Bool
  windows : List Panel
  deriving DecidableEq

/-- The user-supplied options object (every field optional; `none` models a
field left `undefined`). -/
structure Options where
  tabs : Option Bool
  autonav : Option Bool
  navigations_buttons : Option Bool
  autonav_delay : Option Int
  disable_keyboard_navigation : Option Bool
  deriving DecidableEq

/-- The initialization loop of the constructor: assign each panel the inline
left offset `this.width * i` px. -/
def JSCarousel.setLefts (width : Rat) : Nat → List Panel → List Panel
  | _, [] => []
  | k, w :: rest =>
    { w with left := width * (k : Rat) } :: JSCarousel.setLefts width (k + 1) rest

/-- The `JSCarousel` constructor.  `container` is `none` when the caller passes
a null/undefined reference.  Resolution of each option follows the source's
conditional expressions: an explicit user value wins, otherwise the default
(`this.tabs !== null` for tabs — always true, since `querySelectorAll` returns
a NodeList, never `null`; presence of both buttons for the navigation buttons;
`options.autonav_delay || 5000`, so an explicit 0 also falls back to 5000).
Width is sampled from the first panel's computed style; every panel gets the
inline offset `width * i`; `max_index` comes from the tab count when tabs are
enabled, else from the panel count; `_enable_navigation_buttons` throws when
the feature is enabled and a button is missing (the next button is checked
first).  The auto-navigation timer and the event listeners carry no state
relevant to this model beyond the handlers modelled above. -/
def JSCarousel.construct (container : Option ContainerInput) (options : Option Options) :
    Except String JSCarousel :=
  match container with
  | none => Except.error "The container of the carousel is undefined."
  | some c =>
    let tabs : Option (List Tab) := some c.tabItems
    let allow_tabs : Bool :=
      match options with
      | some o => match o.tabs with | some b => b | none => tabs.isSome
      | none => tabs.isSome
    let allow_autonav : Bool :=
      match options with
      | some o => match o.autonav with | some b => b | none => true
      | none => true
    let presence_of_buttons : Bool := c.prevButton && c.nextButton
    let allow_navbuttons : Bool :=
      match options with
      | some o => match o.navigations_buttons with | some b => b | none => presence_of_buttons
      | none => presence_of_buttons
    let autonav_delay : Int :=
      match options with
      | some o => match o.autonav_delay with
        | some d => if d = 0 then 5000 else d
        | none => 5000
      | none => 5000
    let dkn : Bool :=
      match options with
      | some o => match o.disable_keyboard_navigation with | some b => b | none => false
      | none => false
    match c.windows.head? with
    | none => Except.error "There is no window in the carousel."
    | some first_window =>
      let width := first_window.computedWidth
      let windows := JSCarousel.setLefts width 0 c.windows
      let max_index : Int :=
        if allow_tabs && tabs.isSome then (c.tabItems.length : Int) - 1
        else (c.windows.length : Int) - 1
      if allow_navbuttons && !c.nextButton then
        Except.error "There is no next button."
      else if allow_navbuttons && !c.prevButton then
        Except.error "There is no previous button."
      else
        Except.ok
          { width := width
            max_index := max_index
            current_index := 0
            current_delay := 0
            tabs := tabs
            allow_tabs := allow_tabs
            allow_autonav := allow_autonav
            allow_navbuttons := allow_navbuttons
            autonav_delay := autonav_delay
            disable_keyboard_navigation := dkn
            windows := windows }

/-- The state after a call to `next()` (the state component, whether or not the
call threw). -/
def JSCarousel.nextStep (s : JSCarousel) : JSCarousel :=
  (JSCarousel.next s).2

/-- The state after a call to `previous()`. -/
def JSCarousel.prevStep (s : JSCarousel) : JSCarousel :=
  (JSCarousel.previous s).2

/-- `iterNext k s`: the state after calling `next()` `k` times. -/
def iterNext : Nat → JSCarousel → JSCarousel
  | 0, s => s
  | k + 1, s => iterNext k (JSCarousel.nextStep s)

/-- Well-formed tab markup: every tab list item has a `.pos` descendant (the
structure the README requires). -/
def wfTabs (s : JSCarousel) : Bool :=
  match s.tabs with
  | none => true
  | some l => l.all fun t => t.posClassList.isSome

/-- The number of panels whose `aria-hidden` attribute is the string "false". -/
def visibleCount (s : JSCarousel) : Nat :=
  (s.windows.filter fun w => w.ariaHidden == some "false").length

/-! ### Frame lemmas: which fields each operation can touch -/

theorem JSCarousel.move_current_index (s : JSCarousel) (i : Int) :
    (s.move i).current_index = s.current_index := by
  simp only [JSCarousel.move]; split <;> rfl

theorem JSCarousel.move_max_index (s : JSCarousel) (i : Int) :
    (s.move i).max_index = s.max_index := by
  simp only [JSCarousel.move]; split <;> rfl

theorem JSCarousel.move_tabs (s : JSCarousel) (i : Int) :
    (s.move i).tabs = s.tabs := by
  simp only [JSCarousel.move]; split <;> rfl

theorem all_set_true {α : Type} (p : α → Bool) :
    ∀ (l : List α) (n : Nat) (x : α), p x = true → l.all p = true →
      ((l.set n x).all p) = true := by
  intro l
  induction l with
  | nil => intro n x _ _; simp
  | cons a as ih =>
    intro n x hx h
    simp only [List.all_cons, Bool.and_eq_true] at h
    cases n with
    | zero => simp [List.set, hx, h.2]
    | succ m => simp [List.set, h.1, ih m x hx h.2]

theorem deselectTabs_wf (sel : Int) :
    ∀ (k : Nat) (l : List Tab), (l.all fun t => t.posClassList.isSome) = true →
      (JSCarousel.deselectTabs sel k l).1 = none ∧
      ((JSCarousel.deselectTabs sel k l).2.all fun t => t.posClassList.isSome) = true := by
  intro k l
  induction l generalizing k with
  | nil => intro _; exact ⟨rfl, rfl⟩
  | cons t rest ih =>
    intro h
    simp only [List.all_cons, Bool.and_eq_true] at h
    obtain ⟨ht, hrest⟩ := h
    simp only [JSCarousel.deselectTabs]
    split
    · have h2 := ih (k + 1) hrest
      simp [h2.1, h2.2, ht]
    · obtain ⟨cls, hcls⟩ := Option.isSome_iff_exists.mp ht
      simp only [hcls]
      have h2 := ih (k + 1) hrest
      simp [h2.1, h2.2]

theorem jsIndex_mem {α : Type} {l : List α} {i : Int} {x : α}
    (h : jsIndex l i = some x) : x ∈ l := by
  unfold jsIndex at h
  split at h
  · exact List.get?_mem h
  · cases h

theorem activePanelTabs_wf (tabs : List Tab) (i : Int)
    (h : (tabs.all fun t => t.posClassList.isSome) = true) :
    (JSCarousel.activePanelTabs tabs i).1 = none ∧
    ((JSCarousel.activePanelTabs tabs i).2.all fun t => t.posClassList.isSome) = true := by
  unfold JSCarousel.activePanelTabs
  cases hj : jsIndex tabs i with
  | none => exact ⟨rfl, h⟩
  | some tab =>
    have htab : tab ∈ tabs := jsIndex_mem hj
    have hpos : tab.posClassList.isSome = true := List.all_eq_true.mp h tab htab
    obtain ⟨cls, hcls⟩ := Option.isSome_iff_exists.mp hpos
    simp only [hcls]
    apply deselectTabs_wf
    exact all_set_true _ tabs i.toNat _ (by simp) h

theorem active_panel_current_index (s : JSCarousel) (i : Int) :
    ((s.active_panel i).2).current_index = s.current_index := by
  unfold JSCarousel.active_panel
  split
  · cases hap : JSCarousel.activePanelTabs (s.tabs.getD []) i with
    | mk err tabs2 =>
      cases err <;> simp [JSCarousel.move_current_index]
  · simp [JSCarousel.move_current_index]

theorem active_panel_max_index (s : JSCarousel) (i : Int) :
    ((s.active_panel i).2).max_index = s.max_index := by
  unfold JSCarousel.active_panel
  split
  · cases hap : JSCarousel.activePanelTabs (s.tabs.getD []) i with
    | mk err tabs2 =>
      cases err <;> simp [JSCarousel.move_max_index]
  · simp [JSCarousel.move_max_index]

theorem active_panel_ok (s : JSCarousel) (i : Int) (h : wfTabs s = true) :
    (s.active_panel i).1 = none ∧ wfTabs (s.active_panel i).2 = true := by
  unfold JSCarousel.active_panel
  split
  case isTrue hsome =>
    obtain ⟨l, hl⟩ := Option.isSome_iff_exists.mp hsome
    have hall : (l.all fun t => t.posClassList.isSome) = true := by
      unfold wfTabs at h; rw [hl] at h; exact h
    have hw := activePanelTabs_wf (s.tabs.getD []) i (by rw [hl]; exact hall)
    cases hap : JSCarousel.activePanelTabs (s.tabs.getD []) i with
    | mk err tabs2 =>
      rw [hap] at hw
      cases err with
      | some e => simp at hw
      | none =>
        refine ⟨rfl, ?_⟩
        have : wfTabs { s with tabs := some tabs2 } = true := by
          unfold wfTabs; exact hw.2
        simpa [wfTabs, JSCarousel.move_tabs] using this
  case isFalse =>
    refine ⟨rfl, ?_⟩
    simpa [wfTabs, JSCarousel.move_tabs] using h


theorem wfTabs_set_current (s : JSCarousel) (x : Int) :
    wfTabs { s with current_index := x } = wfTabs s := rfl

theorem next_char (s : JSCarousel) (h : wfTabs s = true) :
    (s.next).1 = none ∧
    s.nextStep.current_index =
      (if s.current_index < s.max_index then s.current_index + 1 else 0) ∧
    s.nextStep.max_index = s.max_index ∧ wfTabs s.nextStep = true := by
  by_cases hlt : s.current_index < s.max_index
  · have hok := active_panel_ok s (s.current_index + 1) h
    have hc := active_panel_current_index s (s.current_index + 1)
    have hm := active_panel_max_index s (s.current_index + 1)
    cases hap : s.active_panel (s.current_index + 1) with
    | mk err s2 =>
      rw [hap] at hok hc hm
      simp only at hc hm
      cases err with
      | some e => simp at hok
      | none =>
        have hnext : s.next = (none, { s2 with current_index := s2.current_index + 1 }) := by
          unfold JSCarousel.next
          rw [if_pos hlt, hap]
        refine ⟨by rw [hnext], ?_, ?_, ?_⟩
        · rw [JSCarousel.nextStep, hnext, if_pos hlt]
          simp [hc]
        · rw [JSCarousel.nextStep, hnext]
          simpa using hm
        · rw [JSCarousel.nextStep, hnext]
          simpa [wfTabs_set_current] using hok.2
  · have hok := active_panel_ok s 0 h
    have hm := active_panel_max_index s 0
    cases hap : s.active_panel 0 with
    | mk err s2 =>
      rw [hap] at hok hm
      simp only at hm
      cases err with
      | some e => simp at hok
      | none =>
        have hnext : s.next = (none, { s2 with current_index := 0 }) := by
          unfold JSCarousel.next
          rw [if_neg hlt, hap]
        refine ⟨by rw [hnext], ?_, ?_, ?_⟩
        · rw [JSCarousel.nextStep, hnext, if_neg hlt]
        · rw [JSCarousel.nextStep, hnext]
          simpa using hm
        · rw [JSCarousel.nextStep, hnext]
          simpa [wfTabs_set_current] using hok.2

theorem prev_char (s : JSCarousel) (h : wfTabs s = true) :
    (s.previous).1 = none ∧
    s.prevStep.current_index =
      (if 0 < s.current_index then s.current_index - 1 else s.max_index) ∧
    s.prevStep.max_index = s.max_index ∧ wfTabs s.prevStep = true := by
  by_cases hgt : 0 < s.current_index
  · have hok := active_panel_ok s (s.current_index - 1) h
    have hc := active_panel_current_index s (s.current_index - 1)
    have hm := active_panel_max_index s (s.current_index - 1)
    cases hap : s.active_panel (s.current_index - 1) with
    | mk err s2 =>
      rw [hap] at hok hc hm
      simp only at hc hm
      cases err with
      | some e => simp at hok
      | none =>
        have hprev : s.previous = (none, { s2 with current_index := s2.current_index - 1 }) := by
          unfold JSCarousel.previous
          rw [if_pos hgt, hap]
        refine ⟨by rw [hprev], ?_, ?_, ?_⟩
        · rw [JSCarousel.prevStep, hprev, if_pos hgt]
          simp [hc]
        · rw [JSCarousel.prevStep, hprev]
          simpa using hm
        · rw [JSCarousel.prevStep, hprev]
          simpa [wfTabs_set_current] using hok.2
  · have hok := active_panel_ok s s.max_index h
    have hm := active_panel_max_index s s.max_index
    cases hap : s.active_panel s.max_index with
    | mk err s2 =>
      rw [hap] at hok hm
      simp only at hm
      cases err with
      | some e => simp at hok
      | none =>
        have hprev : s.previous = (none, { s2 with current_index := s2.max_index }) := by
          unfold JSCarousel.previous
          rw [if_neg hgt, hap]
        refine ⟨by rw [hprev], ?_, ?_, ?_⟩
        · rw [JSCarousel.prevStep, hprev, if_neg hgt]
          simpa using hm
        · rw [JSCarousel.prevStep, hprev]
          simpa using hm
        · rw [JSCarousel.prevStep, hprev]
          simpa [wfTabs_set_current] using hok.2

theorem iterNext_char (k : Nat) :
    ∀ (s : JSCarousel), wfTabs s = true → 0 ≤ s.current_index →
      s.current_index ≤ s.max_index →
      (iterNext k s).current_index = (s.current_index + k) % (s.max_index + 1) ∧
      (iterNext k s).max_index = s.max_index ∧ wfTabs (iterNext k s) = true := by
  induction k with
  | zero =>
    intro s hw h0 hle
    refine ⟨?_, rfl, hw⟩
    simp only [iterNext, Nat.cast_zero, Int.add_zero]
    exact (Int.emod_eq_of_lt h0 (by omega)).symm
  | succ k ih =>
    intro s hw h0 hle
    obtain ⟨-, hcur, hmax, hw2⟩ := next_char s hw
    have h02 : 0 ≤ s.nextStep.current_index := by rw [hcur]; split <;> omega
    have hle2 : s.nextStep.current_index ≤ s.nextStep.max_index := by
      rw [hcur, hmax]; split <;> omega
    have hstep : iterNext (k + 1) s = iterNext k s.nextStep := rfl
    obtain ⟨ih1, ih2, ih3⟩ := ih s.nextStep hw2 h02 hle2
    refine ⟨?_, by rw [hstep, ih2, hmax], by rw [hstep]; exact ih3⟩
    rw [hstep, ih1, hmax, hcur]
    by_cases hlt : s.current_index < s.max_index
    · rw [if_pos hlt]
      push_cast
      ring_nf
    · rw [if_neg hlt]
      have hceq : s.current_index = s.max_index := by omega
      push_cast
      rw [Int.zero_add, hceq]
      conv_rhs => rw [show s.max_index + ((k : Int) + 1) = k + (s.max_index + 1) * 1 by ring]
      rw [Int.add_mul_emod_self_left]

theorem map_contains_filter {α : Type} [DecidableEq α] (l : List α) (P : α → Bool) (f : α → α) :
    (l.map fun el => if (l.filter P).contains el then f el else el)
      = l.map fun el => if P el then f el else el := by
  apply List.map_congr_left
  intro a ha
  by_cases hP : P a = true
  · simp [List.elem_iff, List.mem_filter, ha, hP]
  · simp [List.elem_iff, List.mem_filter, hP]

theorem hide_window_eq (w : Panel) :
    JSCarousel.hide_window w =
      { w with
        ariaHidden := some "true"
        descendants := w.descendants.map fun el =>
          if isFocusable el && focusableQuerySelectorMatches "0" el
          then el.setTabindexAttr "-1" else el } := by
  unfold JSCarousel.hide_window getKeyboardFocusableElements
  simp only [List.filter_filter]
  rw [map_contains_filter]

theorem show_window_eq (w : Panel) :
    JSCarousel.show_window w =
      { w with
        ariaHidden := some "false"
        descendants := w.descendants.map fun el =>
          if isFocusable el && focusableQuerySelectorMatches "-1" el
          then el.setTabindexAttr "0" else el } := by
  unfold JSCarousel.show_window getKeyboardFocusableElements
  simp only [List.filter_filter]
  rw [map_contains_filter]

theorem moveWindows_get (d : Rat) (idx : Int) :
    ∀ (ws : List Panel) (k i : Nat),
      (JSCarousel.moveWindows d idx k ws).get? i =
        (ws.get? i).map fun w =>
          if ((k + i : Nat) : Int) ≠ idx
          then JSCarousel.hide_window { w with left := w.left + d }
          else JSCarousel.show_window { w with left := w.left + d } := by
  intro ws
  induction ws with
  | nil => intro k i; simp [JSCarousel.moveWindows]
  | cons w rest ih =>
    intro k i
    cases i with
    | zero => simp [JSCarousel.moveWindows]
    | succ m =>
      simp only [JSCarousel.moveWindows, List.get?]
      rw [ih (k + 1) m]
      have e : k + 1 + m = k + (m + 1) := by omega
      rw [e]

theorem setLefts_get (width : Rat) :
    ∀ (l : List Panel) (k i : Nat),
      (JSCarousel.setLefts width k l).get? i =
        (l.get? i).map fun w => { w with left := width * ((k + i : Nat) : Rat) } := by
  intro l
  induction l with
  | nil => intro k i; simp [JSCarousel.setLefts]
  | cons w rest ih =>
    intro k i
    cases i with
    | zero => simp [JSCarousel.setLefts]
    | succ m =>
      simp only [JSCarousel.setLefts, List.get?]
      rw [ih (k + 1) m]
      have e : k + 1 + m = k + (m + 1) := by omega
      rw [e]

theorem construct_ok_inv {c : ContainerInput} {opts : Option Options} {car : JSCarousel}
    (h : JSCarousel.construct (some c) opts = Except.ok car) :
    ∃ w, car.windows = JSCarousel.setLefts w 0 c.windows := by
  simp only [JSCarousel.construct] at h
  cases hh : c.windows.head? with
  | none => rw [hh] at h; cases h
  | some fw =>
    rw [hh] at h
    split_ifs at h <;>
      exact ⟨fw.computedWidth, by rw [← Except.ok.inj h]⟩

/-! ### Concrete inputs used by witnesses and counterexamples -/

/-- An anchor element carrying `tabindex="0"`, fully visible and enabled. -/
def elLink : Elem :=
  { tagName := "A", tabindexAttr := some "0", disabledAttr := false, hiddenAttr := false,
    typeProp := "", styleDisplay := "", styleVisibility := "",
    computedDisplay := "inline", computedVisibility := "visible" }

/-- The same anchor after its `tabindex` has been set to `-1`. -/
def elLinkHidden : Elem := { elLink with tabindexAttr := some "-1" }

/-- An HTML input with `type="hidden"`: the DOM reports `tagName = "INPUT"`
(uppercase), and the model leaves its computed display free. -/
def inputTypeHidden : Elem :=
  { tagName := "INPUT", tabindexAttr := none, disabledAttr := false, hiddenAttr := false,
    typeProp := "hidden", styleDisplay := "", styleVisibility := "",
    computedDisplay := "inline-block", computedVisibility := "visible" }

/-- A visible, enabled button carrying a positive `tabindex="5"`. -/
def btn5 : Elem :=
  { tagName := "BUTTON", tabindexAttr := some "5", disabledAttr := false, hiddenAttr := false,
    typeProp := "", styleDisplay := "", styleVisibility := "",
    computedDisplay := "inline-block", computedVisibility := "visible" }

/-- A div that is focusable only through its `tabindex="0"` marker. -/
def divTab0 : Elem :=
  { tagName := "DIV", tabindexAttr := some "0", disabledAttr := false, hiddenAttr := false,
    typeProp := "", styleDisplay := "", styleVisibility := "",
    computedDisplay := "block", computedVisibility := "visible" }

/-- A visible, enabled anchor with no tabindex attribute. -/
def aGood : Elem :=
  { tagName := "A", tabindexAttr := none, disabledAttr := false, hiddenAttr := false,
    typeProp := "", styleDisplay := "", styleVisibility := "",
    computedDisplay := "inline", computedVisibility := "visible" }

/-- The focusability predicate exactly as claim C3 words it (spec-side
definition, for comparison with the source-side `isFocusable`): "when the
element is an input" is read at the DOM level, where an HTML input element's
`tagName` is "INPUT", so the tag test is case-insensitive. -/
def specFocusable (el : Elem) : Bool :=
  !(hasStyle el "display" "none") &&
  (!(hasStyle el "visibility" "hidden") &&
  (!el.disabledAttr &&
  (!el.hiddenAttr &&
  (if lowerString el.tagName == "input" then el.typeProp != "hidden" else true))))

/-- C3, counterexample: an HTML input element with `type="hidden"` (DOM tag
name "INPUT") that is visible and enabled is classified focusable by the
source's `isFocusable`, while the claim says every input with `type=hidden` is
not focusable: the source's fifth rule compares `el.tagName` with the
lowercase string "input" and therefore never fires on HTML DOM elements. -/
theorem claim_C3_counterexample :
    isFocusable inputTypeHidden = true ∧ specFocusable inputTypeHidden = false := by
  decide

/-- C3 (amended): `isFocusable` returns true iff the computed or inline
display is not "none", the computed or inline visibility is not "hidden", the
element has no `disabled` attribute, no `hidden` attribute, and — when the
element's `tagName` is the exact lowercase string "input", which the uppercase
tag names of HTML DOM elements never are — its `type` is not "hidden". -/
theorem claim_C3_isFocusable_iff (el : Elem) :
    isFocusable el = true ↔
      hasStyle el "display" "none" = false ∧
      hasStyle el "visibility" "hidden" = false ∧
      el.disabledAttr = false ∧
      el.hiddenAttr = false ∧
      (el.tagName = "input" → el.typeProp ≠ "hidden") := by
  simp only [isFocusable, RULES, List.all_cons, List.all_nil, Bool.and_true,
    Bool.and_eq_true, Bool.not_eq_true']
  by_cases htag : el.tagName = "input"
  · simp [htag, bne_iff_ne, and_assoc]
  · simp [htag, and_assoc]

/-- C3, witness: a plain visible anchor is focusable, by the amended
characterization. -/
theorem claim_C3_witness : isFocusable aGood = true :=
  (claim_C3_isFocusable_iff aGood).mpr (by decide)

/-- The numeric value of an element's `tabindex` attribute, read as a decimal
numeral. -/
def tabindexNat (el : Elem) : Option Nat :=
  el.tabindexAttr.map fun s => s.data.foldl (fun n c => n * 10 + (c.toNat - 48)) 0

/-- C9, counterexample: a visible, enabled button with `tabindex="5"` (the
positive number 5) is returned by `getKeyboardFocusableElements`: the selector
matches it through the tag allowlist, and no rule inspects the tabindex
value. -/
theorem claim_C9_counterexample :
    getKeyboardFocusableElements "0" [btn5] = [btn5] ∧
      tabindexNat btn5 = some 5 ∧ 0 < 5 := by
  decide

/-- C9 (amended): every element returned by `getKeyboardFocusableElements`
(in its default "currently focusable" configuration) either has a tag in the
fixed allowlist or carries the literal attribute `tabindex="0"`; an element
whose only path to focusability is a positive `tabindex` is never returned,
but allowlisted elements are returned regardless of a positive `tabindex`. -/
theorem claim_C9_selector_membership (children : List Elem) (el : Elem)
    (h : el ∈ getKeyboardFocusableElements "0" children) :
    defaultFocusableHTMLElements.contains (lowerString el.tagName) = true ∨
      el.tabindexAttr = some "0" := by
  unfold getKeyboardFocusableElements at h
  have h1 := (List.mem_filter.mp h).1
  have h2 := (List.mem_filter.mp h1).2
  unfold focusableQuerySelectorMatches at h2
  cases Bool.or_eq_true_iff.mp h2 with
  | inl hc => exact Or.inl hc
  | inr he => exact Or.inr (by simpa using he)

/-- C9, witness: the amended theorem applied to a div selected through its
`tabindex="0"` marker. -/
theorem claim_C9_witness :
    defaultFocusableHTMLElements.contains (lowerString divTab0.tagName) = true ∨
      divTab0.tabindexAttr = some "0" :=
  claim_C9_selector_membership [divTab0] divTab0 (by decide)

/-- Equality of `Except` results is decidable when both components are. -/
instance {e a : Type} [DecidableEq e] [DecidableEq a] : DecidableEq (Except e a) := fun x y =>
  match x, y with
  | .ok u, .ok v =>
    if h : u = v then isTrue (by rw [h]) else isFalse (fun hh => h (Except.ok.inj hh))
  | .error u, .error v =>
    if h : u = v then isTrue (by rw [h]) else isFalse (fun hh => h (Except.error.inj hh))
  | .ok _, .error _ => isFalse (fun hh => Except.noConfusion hh)
  | .error _, .ok _ => isFalse (fun hh => Except.noConfusion hh)

/-- A panel with no `aria-hidden` attribute in the markup, no focusable
content and a rendered width of 100px. -/
def plainPanel : Panel :=
  { left := 0, computedWidth := 100, ariaHidden := none, descendants := [] }

/-- A container with two panels, no tablist and no buttons, whose markup sets
`aria-hidden` on no panel. -/
def c2Container : ContainerInput :=
  { tabItems := [], prevButton := false, nextButton := false,
    windows := [plainPanel, plainPanel] }

/-- The carousel produced by constructing on `c2Container` with no options. -/
def c2CarExpected : JSCarousel :=
  { width := 100, max_index := -1, current_index := 0, current_delay := 0,
    tabs := some [], allow_tabs := true, allow_autonav := true,
    allow_navbuttons := false, autonav_delay := 5000,
    disable_keyboard_navigation := false,
    windows := [plainPanel, { plainPanel with left := 100 }] }

/-- C2, counterexample: on a valid construction input whose markup does not
set `aria-hidden` on any panel, construction succeeds and zero panels (not
exactly one) have `aria-hidden="false"` afterwards: the constructor never
touches `aria-hidden`. -/
theorem claim_C2_counterexample :
    ((JSCarousel.construct (some c2Container) none).toOption.map visibleCount) = some 0 ∧
    ((JSCarousel.construct (some c2Container) none).toOption.map visibleCount) ≠ some 1 := by
  decide

/-- C2 (amended): the constructor modifies no panel's `aria-hidden` attribute;
immediately after construction every panel's `aria-hidden` equals the value
the markup gave it (so exactly one panel is visible only when the initial
markup already satisfies that, as the README's required structure does). -/
theorem claim_C2_construct_preserves_ariaHidden
    (c : ContainerInput) (opts : Option Options) (car : JSCarousel)
    (h : JSCarousel.construct (some c) opts = Except.ok car) (i : Nat) :
    (car.windows.get? i).map Panel.ariaHidden = (c.windows.get? i).map Panel.ariaHidden := by
  obtain ⟨w, hw⟩ := construct_ok_inv h
  rw [hw, setLefts_get]
  cases c.windows.get? i <;> rfl

/-- C2, witness: the amended theorem applied to the concrete construction on
`c2Container`. -/
theorem claim_C2_witness :
    (c2CarExpected.windows.get? 0).map Panel.ariaHidden =
      (c2Container.windows.get? 0).map Panel.ariaHidden :=
  claim_C2_construct_preserves_ariaHidden c2Container none c2CarExpected
    (by simp [JSCarousel.construct, JSCarousel.setLefts, c2Container, c2CarExpected, plainPanel]) 0

/-- A container with one panel, no tablist and no buttons. -/
def c4Container : ContainerInput :=
  { tabItems := [], prevButton := false, nextButton := false, windows := [plainPanel] }

/-- C4: evaluating the constructor at the failing input — a container with no
tablist (so `querySelectorAll(".carousel-tablist li")` yields an empty
NodeList) and no options.  The tabs feature resolves to enabled (the default
`this.tabs !== null` is always true because `querySelectorAll` never returns
`null`), contrary to the claimed presence-based default, and `max_index` is
consequently computed from the empty tab list as -1. -/
theorem claim_C4_tabs_default_always_enabled :
    ((JSCarousel.construct (some c4Container) none).toOption.map JSCarousel.allow_tabs)
        = some true ∧
    ((JSCarousel.construct (some c4Container) none).toOption.map JSCarousel.max_index)
        = some (-1) := by
  decide

/-- A tab list item without a `.pos` descendant (malformed markup). -/
def badTab : Tab :=
  { ariaSelected := some "false", tabindexAttr := some "-1", posClassList := none }

/-- A container whose only tab is malformed (no `.pos` child). -/
def c8Malformed : ContainerInput :=
  { tabItems := [badTab], prevButton := false, nextButton := false,
    windows := [plainPanel] }

/-- The carousel produced by constructing on `c8Malformed` with no options. -/
def c8Car : JSCarousel :=
  { width := 100, max_index := 0, current_index := 0, current_delay := 0,
    tabs := some [badTab], allow_tabs := true, allow_autonav := true,
    allow_navbuttons := false, autonav_delay := 5000,
    disable_keyboard_navigation := false, windows := [plainPanel] }

/-- C8, counterexample: construction on a container whose tab markup is
malformed (a tab list item with no `.pos` descendant) succeeds — malformed tab
markup is not detected at construction time, contradicting the claim that
every detectable misconfiguration is fatal at construction. -/
theorem claim_C8_counterexample :
    (JSCarousel.construct (some c8Malformed) none).toOption.isSome = true := by
  decide

/-- C8 (amended): a missing container, a missing content panel, and a missing
navigation button while navigation buttons are required by configuration are
each fatal at construction time, with the source's error messages (the next
button is checked before the previous one); malformed tab markup, by
contrast, is fatal only at the first panel activation: constructing on
`c8Malformed` succeeds and the first `active_panel(0)` then throws the
tab-markup error. -/
theorem claim_C8_fatal_errors :
    (∀ opts, JSCarousel.construct none opts =
        Except.error "The container of the carousel is undefined.") ∧
    (∀ (c : ContainerInput) (opts : Option Options), c.windows = [] →
        JSCarousel.construct (some c) opts =
          Except.error "There is no window in the carousel.") ∧
    (∀ (c : ContainerInput) (o : Options), o.navigations_buttons = some true →
        c.windows ≠ [] → (c.nextButton = false ∨ c.prevButton = false) →
        JSCarousel.construct (some c) (some o) =
          Except.error (if c.nextButton = false then "There is no next button."
                        else "There is no previous button.")) ∧
    (JSCarousel.construct (some c8Malformed) none = Except.ok c8Car ∧
      (c8Car.active_panel 0).1 = some posError) := by
  refine ⟨fun opts => rfl, ?_, ?_,
    ⟨by simp [JSCarousel.construct, JSCarousel.setLefts, c8Malformed, c8Car, plainPanel, badTab],
     by decide⟩⟩
  · intro c opts hw
    simp [JSCarousel.construct, hw]
  · intro c o hnav hwne hbtn
    obtain ⟨fw, hfw⟩ : ∃ fw, c.windows.head? = some fw := by
      cases hcw : c.windows with
      | nil => exact absurd hcw hwne
      | cons a l => exact ⟨a, rfl⟩
    simp only [JSCarousel.construct, hnav, hfw]
    cases hnb : c.nextButton with
    | false => simp
    | true =>
      rcases hbtn with h | h
      · rw [hnb] at h; cases h
      · simp [h]

/-- A container with no panels at all. -/
def c8Empty : ContainerInput :=
  { tabItems := [], prevButton := false, nextButton := false, windows := [] }

/-- A container with a panel but no buttons. -/
def c8NoBtn : ContainerInput :=
  { tabItems := [], prevButton := false, nextButton := false, windows := [plainPanel] }

/-- Options explicitly enabling the navigation buttons feature. -/
def c8ForceNav : Options :=
  { tabs := none, autonav := none, navigations_buttons := some true,
    autonav_delay := none, disable_keyboard_navigation := none }

/-- C8, witness: the amended theorem applied to a panel-less container and to
a container lacking buttons while the feature is forced on. -/
theorem claim_C8_witness :
    JSCarousel.construct (some c8Empty) none =
        Except.error "There is no window in the carousel." ∧
    JSCarousel.construct (some c8NoBtn) (some c8ForceNav) =
        Except.error "There is no next button." := by
  constructor
  · exact claim_C8_fatal_errors.2.1 c8Empty none rfl
  · have h := claim_C8_fatal_errors.2.2.1 c8NoBtn c8ForceNav rfl (by decide) (Or.inl rfl)
    simpa using h

/-- A visible panel whose only descendant is a link with `tabindex="0"`. -/
def panelA : Panel :=
  { left := 0, computedWidth := 100, ariaHidden := some "false", descendants := [elLink] }

/-- A hidden panel whose only descendant is a link with `tabindex="-1"`. -/
def panelB : Panel :=
  { left := 100, computedWidth := 100, ariaHidden := some "true",
    descendants := [elLinkHidden] }

/-- A two-panel carousel of width 100 currently showing panel 0. -/
def carAB : JSCarousel :=
  { width := 100, max_index := 1, current_index := 0, current_delay := 0,
    tabs := some [], allow_tabs := true, allow_autonav := true,
    allow_navbuttons := false, autonav_delay := 5000,
    disable_keyboard_navigation := false, windows := [panelA, panelB] }

/-- C1: for a target index whose transition distance
`panel_width * (current_index - target_index)` is nonzero, `move` adds the
distance to every panel's current left offset; every non-target panel gets
`aria-hidden="true"` and each of its descendants that is focusable and matches
the default selector (tabindex literal "0", the "currently focusable" mode)
gets `tabindex="-1"`; the target panel gets `aria-hidden="false"` and each
descendant that is focusable and matches the reconfigured selector (tabindex
literal "-1", the "revealable" mode) gets `tabindex="0"`. -/
theorem claim_C1_move_transition (s : JSCarousel) (index : Int)
    (hd : s.width * ((s.current_index : Rat) - (index : Rat)) ≠ 0)
    (i : Nat) (hi : i < s.windows.length) :
    (s.move index).windows.get? i =
      some (if (i : Int) = index
        then { s.windows.get ⟨i, hi⟩ with
               left := (s.windows.get ⟨i, hi⟩).left
                 + s.width * ((s.current_index : Rat) - (index : Rat))
               ariaHidden := some "false"
               descendants := (s.windows.get ⟨i, hi⟩).descendants.map fun el =>
                 if isFocusable el && focusableQuerySelectorMatches "-1" el
                 then el.setTabindexAttr "0" else el }
        else { s.windows.get ⟨i, hi⟩ with
               left := (s.windows.get ⟨i, hi⟩).left
                 + s.width * ((s.current_index : Rat) - (index : Rat))
               ariaHidden := some "true"
               descendants := (s.windows.get ⟨i, hi⟩).descendants.map fun el =>
                 if isFocusable el && focusableQuerySelectorMatches "0" el
                 then el.setTabindexAttr "-1" else el }) := by
  simp only [JSCarousel.move]
  split
  case isTrue =>
    show (JSCarousel.moveWindows _ index 0 s.windows).get? i = _
    rw [moveWindows_get]
    rw [List.get?_eq_get hi]
    simp only [Option.map_some']
    by_cases hii : (i : Int) = index
    · rw [if_pos hii, if_neg (by omega), show_window_eq]
    · rw [if_neg hii, if_pos (by omega), hide_window_eq]
  case isFalse h => exact absurd hd h

/-- C1, witness: moving the two-panel carousel to index 1 hides panel 0
(shifted to -100) and shows panel 1. -/
theorem claim_C1_witness :
    ((carAB.move 1).windows.get? 0).map Panel.ariaHidden = some (some "true") ∧
    ((carAB.move 1).windows.get? 1).map Panel.ariaHidden = some (some "false") ∧
    ((carAB.move 1).windows.get? 0).map Panel.left = some (-100) := by
  have h0 := claim_C1_move_transition carAB 1 (by norm_num [carAB]) 0 (by simp [carAB])
  have h1 := claim_C1_move_transition carAB 1 (by norm_num [carAB]) 1 (by simp [carAB])
  refine ⟨by rw [h0]; rfl, by rw [h1]; rfl, ?_⟩
  rw [h0]
  norm_num [carAB, panelA]

/-- C7: activating the panel at the current index leaves every panel
untouched — the transition distance `width * (current_index - current_index)`
is zero, so `move` changes no left offset, no `aria-hidden` attribute and no
descendant tabindex (the zero-distance short-circuit). -/
theorem claim_C7_activate_current_is_noop (s : JSCarousel) :
    ((s.active_panel s.current_index).2).windows = s.windows := by
  have hmv : ∀ t : JSCarousel, t.current_index = s.current_index → t.windows = s.windows →
      (t.move s.current_index).windows = s.windows := by
    intro t ht hw
    simp only [JSCarousel.move]
    rw [if_neg (by rw [ht]; simp)]
    exact hw
  unfold JSCarousel.active_panel
  split
  · cases hap : JSCarousel.activePanelTabs (s.tabs.getD []) s.current_index with
    | mk err tabs2 =>
      cases err with
      | some e => rfl
      | none => exact hmv _ rfl rfl
  · exact hmv s rfl rfl

/-- C10: `active_panel` itself never changes `current_index` (for any index
argument, including an error exit), and the index update is performed by the
callers: the tab click handler sets `current_index` to the tab's position, and
`next` / `previous` set it to the wrapped successor / predecessor — in each
case only when the activation did not throw. -/
theorem claim_C10_current_index_updated_by_callers :
    (∀ (s : JSCarousel) (idx : Int),
        ((s.active_panel idx).2).current_index = s.current_index) ∧
    (∀ (s : JSCarousel) (i : Nat),
        ((s.tabClick i).2).current_index =
          if (s.tabClick i).1 = none then (i : Int) else s.current_index) ∧
    (∀ s : JSCarousel,
        s.nextStep.current_index =
          if (s.next).1 = none
          then (if s.current_index < s.max_index then s.current_index + 1 else 0)
          else s.current_index) ∧
    (∀ s : JSCarousel,
        s.prevStep.current_index =
          if (s.previous).1 = none
          then (if 0 < s.current_index then s.current_index - 1 else s.max_index)
          else s.current_index) := by
  refine ⟨active_panel_current_index, ?_, ?_, ?_⟩
  · intro s i
    unfold JSCarousel.tabClick
    cases hap : s.active_panel (i : Int) with
    | mk err s2 =>
      have hc := active_panel_current_index s (i : Int)
      rw [hap] at hc
      simp only at hc
      cases err with
      | some e => simp [hc]
      | none => simp
  · intro s
    unfold JSCarousel.nextStep JSCarousel.next
    by_cases hlt : s.current_index < s.max_index
    · rw [if_pos hlt]
      cases hap : s.active_panel (s.current_index + 1) with
      | mk err s2 =>
        have hc := active_panel_current_index s (s.current_index + 1)
        rw [hap] at hc
        simp only at hc
        cases err with
        | some e => simp [hc, hlt]
        | none => simp [hc, hlt]
    · rw [if_neg hlt]
      cases hap : s.active_panel 0 with
      | mk err s2 =>
        have hc := active_panel_current_index s 0
        rw [hap] at hc
        simp only at hc
        cases err with
        | some e => simp [hc, hlt]
        | none => simp [hlt]
  · intro s
    unfold JSCarousel.prevStep JSCarousel.previous
    by_cases hgt : 0 < s.current_index
    · rw [if_pos hgt]
      cases hap : s.active_panel (s.current_index - 1) with
      | mk err s2 =>
        have hc := active_panel_current_index s (s.current_index - 1)
        rw [hap] at hc
        simp only at hc
        cases err with
        | some e => simp [hc, hgt]
        | none => simp [hc, hgt]
    · rw [if_neg hgt]
      cases hap : s.active_panel s.max_index with
      | mk err s2 =>
        have hc := active_panel_current_index s s.max_index
        have hm := active_panel_max_index s s.max_index
        rw [hap] at hc hm
        simp only at hc hm
        cases err with
        | some e => simp [hc, hgt]
        | none => simp [hm, hgt]

/-- A well-formed tab (its `.pos` child present). -/
def wfTab : Tab :=
  { ariaSelected := some "false", tabindexAttr := some "-1", posClassList := some [] }

/-- A three-tab carousel (max_index 2) with well-formed tab markup, currently
at index 0. -/
def carRing : JSCarousel :=
  { width := 100, max_index := 2, current_index := 0, current_delay := 0,
    tabs := some [wfTab, wfTab, wfTab], allow_tabs := true, allow_autonav := true,
    allow_navbuttons := false, autonav_delay := 5000,
    disable_keyboard_navigation := false, windows := [] }

/-- C5: on a carousel with well-formed tab markup (so no activation throws),
starting from any `current_index` in `0..max_index`, calling `next()` exactly
`max_index + 1` times returns `current_index` to its starting value. -/
theorem claim_C5_next_wraparound (s : JSCarousel) (hw : wfTabs s = true)
    (h0 : 0 ≤ s.current_index) (hle : s.current_index ≤ s.max_index) :
    (iterNext (s.max_index.toNat + 1) s).current_index = s.current_index := by
  obtain ⟨h1, -, -⟩ := iterNext_char (s.max_index.toNat + 1) s hw h0 hle
  rw [h1]
  have hm : ((s.max_index.toNat + 1 : Nat) : Int) = s.max_index + 1 := by
    push_cast
    rw [Int.toNat_of_nonneg (by omega)]
  rw [hm,
    show s.current_index + (s.max_index + 1) =
      s.current_index + (s.max_index + 1) * 1 by ring,
    Int.add_mul_emod_self_left]
  exact Int.emod_eq_of_lt h0 (by omega)

/-- C5, witness: three `next()` calls on the three-panel carousel return the
index to 0. -/
theorem claim_C5_witness :
    (iterNext (carRing.max_index.toNat + 1) carRing).current_index =
      carRing.current_index :=
  claim_C5_next_wraparound carRing (by decide) (by decide) (by decide)

/-- C6: on a carousel with well-formed tab markup, for every `current_index`
in `0..max_index`, `previous()` right after `next()` restores the index, and
`next()` right after `previous()` restores it too, including across the
wrap-around boundary. -/
theorem claim_C6_prev_next_inverse (s : JSCarousel) (hw : wfTabs s = true)
    (h0 : 0 ≤ s.current_index) (hle : s.current_index ≤ s.max_index) :
    (s.nextStep.prevStep).current_index = s.current_index ∧
    (s.prevStep.nextStep).current_index = s.current_index := by
  obtain ⟨-, hnc, hnm, hnw⟩ := next_char s hw
  obtain ⟨-, hpc, hpm, hpw⟩ := prev_char s hw
  constructor
  · obtain ⟨-, hpc2, -, -⟩ := prev_char s.nextStep hnw
    rw [hpc2, hnc, hnm]
    split_ifs <;> omega
  · obtain ⟨-, hnc2, -, -⟩ := next_char s.prevStep hpw
    rw [hnc2, hpc, hpm]
    split_ifs <;> omega

/-- C6, witness: the inverse laws at the concrete three-panel carousel. -/
theorem claim_C6_witness :
    (carRing.nextStep.prevStep).current_index = carRing.current_index ∧
    (carRing.prevStep.nextStep).current_index = carRing.current_index :=
  claim_C6_prev_next_inverse carRing (by decide) (by decide) (by decide)
